import Mathlib

/-!
Shallow embedding of the imodeljs viewport rendering/decoration pipeline
(`core/frontend/src/ViewContext.ts`): the `DecorateContext` decoration
pipeline with its per-decorator cache, the `SceneContext` scene assembly,
and the guard logic of `drawStandardGrid`.

Machine numbers from the TypeScript source are modelled as rationals;
object handles (graphics, canvas decorations, HTML elements, tiles,
classifiers) are modelled by identity.
-/

namespace IModel

/-- `GraphicType` from `render/GraphicBuilder.ts`: determines to which list of
decorations a graphic is added. -/
inductive GraphicType
  | scene
  | viewBackground
  | worldDecoration
  | worldOverlay
  | viewOverlay
deriving DecidableEq

/-- A `RenderGraphic` handle. `owner g` is the graphic-owner wrapper produced
by `renderSystem.createGraphicOwner`. -/
inductive RenderGraphic
  | primitive (id : Nat)
  | owner (g : RenderGraphic)
deriving DecidableEq

/-- `RenderSystem.createGraphicOwner`: wraps a graphic in an owned handle. -/
def createGraphicOwner (g : RenderGraphic) : RenderGraphic :=
  RenderGraphic.owner g

/-- The `CachedDecoration` tagged union from `Viewport.ts`: a graphic owner
with its graphic type, a canvas decoration with its front flag, or an HTML
element. -/
inductive CachedDecoration
  | graphic (graphicOwner : RenderGraphic) (graphicType : GraphicType)
  | canvas (canvasDecoration : Nat) (atFront : Bool)
  | html (htmlElement : Nat)
deriving DecidableEq

/-- The `Decorations` output bundle (`render/Decorations.ts`): optional
graphic-list slots, the ordered canvas-decoration list, the view background
and the skybox.  Lists start out `none` (TypeScript `undefined`) and are
lazily created. -/
structure Decorations where
  normal : Option (List RenderGraphic) := none
  world : Option (List RenderGraphic) := none
  worldOverlay : Option (List RenderGraphic) := none
  viewOverlay : Option (List RenderGraphic) := none
  canvasDecorations : Option (List Nat) := none
  viewBackground : Option RenderGraphic := none
  skyBox : Option RenderGraphic := none
deriving DecidableEq

/-- The decoration cache plus per-frame state of one `DecorateContext`:
the frame's `Decorations` bundle, the screen viewport's decoration DOM
container (as the ordered list of appended elements), the
`_curCacheableDecorator` slot, and the viewport's decorator cache
(decorator identity to ordered cached decorations). -/
structure DecorateState where
  decorations : Decorations := {}
  decorationDiv : List Nat := []
  curCacheableDecorator : Option Nat := none
  cache : List (Nat × List CachedDecoration) := []
deriving DecidableEq

/-- Modelled from the spec: `Viewport.getCachedDecorations` is not part of the
excerpt; the decoration cache maps decorator identity to an ordered sequence
of cached decorations and the accessor returns the decorator's entry, or
nothing when the decorator has no entry. -/
def getCachedDecorations (cache : List (Nat × List CachedDecoration)) (decId : Nat) :
    Option (List CachedDecoration) :=
  match cache with
  | [] => none
  | (k, ds) :: rest => if k = decId then some ds else getCachedDecorations rest decId

/-- Modelled from the spec: `Viewport.addCachedDecoration` is not part of the
excerpt; recording appends the decoration to the ordered entry list keyed by
the decorator, creating the entry when absent. -/
def addCachedDecoration (cache : List (Nat × List CachedDecoration)) (decId : Nat)
    (d : CachedDecoration) : List (Nat × List CachedDecoration) :=
  match cache with
  | [] => [(decId, [d])]
  | (k, ds) :: rest =>
    if k = decId then (k, ds ++ [d]) :: rest
    else (k, ds) :: addCachedDecoration rest decId d

/-- `DecorateContext._appendToCache`: records one cached decoration under the
current cacheable decorator (the source asserts the slot is occupied; with an
empty slot the record is a no-op here, mirroring the unreachable branch). -/
def appendToCache (s : DecorateState) (d : CachedDecoration) : DecorateState :=
  match s.curCacheableDecorator with
  | none => s
  | some decId => { s with cache := addCachedDecoration s.cache decId d }

/-- The `switch (type)` of `DecorateContext.addDecoration`: routes the graphic
into the bucket selected by its type (lazily creating the list), or replaces
the single view background. -/
def addDecorationToBundle (d : Decorations) (type : GraphicType) (g : RenderGraphic) :
    Decorations :=
  match type with
  | .scene => { d with normal := some (d.normal.getD [] ++ [g]) }
  | .worldDecoration => { d with world := some (d.world.getD [] ++ [g]) }
  | .worldOverlay => { d with worldOverlay := some (d.worldOverlay.getD [] ++ [g]) }
  | .viewOverlay => { d with viewOverlay := some (d.viewOverlay.getD [] ++ [g]) }
  | .viewBackground => { d with viewBackground := some g }

/-- `DecorateContext.addDecoration`: when a cacheable decorator is recording,
the graphic is wrapped in a graphic owner, recorded in the cache, and the
owner (rather than the raw graphic) is routed into the bundle. -/
def addDecoration (s : DecorateState) (type : GraphicType) (decoration : RenderGraphic) :
    DecorateState :=
  match s.curCacheableDecorator with
  | some _ =>
    let graphicOwner := createGraphicOwner decoration
    let s := appendToCache s (.graphic graphicOwner type)
    { s with decorations := addDecorationToBundle s.decorations type graphicOwner }
  | none => { s with decorations := addDecorationToBundle s.decorations type decoration }

/-- The list manipulation of `DecorateContext.addCanvasDecoration`: the list is
lazily created; when it is empty or `atFront` is true the item is pushed
(appended at the back), otherwise it is unshifted (prepended at the front). -/
def addCanvasToBundle (d : Decorations) (decoration : Nat) (atFront : Bool) : Decorations :=
  let list := d.canvasDecorations.getD []
  let list := if list.length = 0 || atFront then list ++ [decoration] else decoration :: list
  { d with canvasDecorations := some list }

/-- `DecorateContext.addCanvasDecoration`. -/
def addCanvasDecoration (s : DecorateState) (decoration : Nat) (atFront : Bool) :
    DecorateState :=
  let s := if s.curCacheableDecorator.isSome then appendToCache s (.canvas decoration atFront)
           else s
  { s with decorations := addCanvasToBundle s.decorations decoration atFront }

/-- `DecorateContext.addHtmlDecoration`: appends the element to the screen
viewport's decoration DOM container (and records it when caching). -/
def addHtmlDecoration (s : DecorateState) (decoration : Nat) : DecorateState :=
  let s := if s.curCacheableDecorator.isSome then appendToCache s (.html decoration) else s
  { s with decorationDiv := s.decorationDiv ++ [decoration] }

/-- One step of `DecorateContext.restoreCache`: re-invokes the add-path that
corresponds to the cached decoration's tag. -/
def restoreCacheOne (s : DecorateState) (cd : CachedDecoration) : DecorateState :=
  match cd with
  | .graphic graphicOwner graphicType => addDecoration s graphicType graphicOwner
  | .canvas canvasDecoration atFront => addCanvasDecoration s canvasDecoration atFront
  | .html htmlElement => addHtmlDecoration s htmlElement

/-- `DecorateContext.restoreCache`: replays the cached decorations in stored
order. -/
def restoreCache (s : DecorateState) (cachedDecorations : List CachedDecoration) :
    DecorateState :=
  cachedDecorations.foldl restoreCacheOne s

/-- One decoration-adding call performed by a decorator's `decorate` body. -/
inductive AddCall
  | decoration (type : GraphicType) (g : RenderGraphic)
  | canvas (d : Nat) (atFront : Bool)
  | html (e : Nat)
deriving DecidableEq

/-- Dispatch one add-call against the context. -/
def runAddCall (s : DecorateState) (c : AddCall) : DecorateState :=
  match c with
  | .decoration type g => addDecoration s type g
  | .canvas d atFront => addCanvasDecoration s d atFront
  | .html e => addHtmlDecoration s e

/-- Run a decorator's sequence of add-calls in order. -/
def runAddCalls (s : DecorateState) (cs : List AddCall) : DecorateState :=
  cs.foldl runAddCall s

/-- A `ViewportDecorator`: identity, the caching opt-in flag, and its
`decorate` body modelled as the sequence of add-calls it performs, plus
whether `decorate` throws after performing them. -/
structure ViewportDecorator where
  id : Nat
  useCachedDecorations : Bool
  decorateCalls : List AddCall
  decorateThrows : Bool
deriving DecidableEq

/-- Result of one `addFromDecorator` invocation: the final context state,
whether the decorator's exception propagated, and whether `decorate` was
invoked at all. -/
structure AddFromDecoratorResult where
  state : DecorateState
  threw : Bool
  invokedDecorate : Bool
deriving DecidableEq

/-- `DecorateContext.addFromDecorator`: for a caching decorator with a prior
cache entry the entry is replayed and `decorate` is not invoked; otherwise the
decorator is marked as cache-recording (when it opted in) and `decorate` runs.
The `finally` block clears the cache-recording slot on every exit path,
including when `decorate` throws. -/
def addFromDecorator (s : DecorateState) (dec : ViewportDecorator) : AddFromDecoratorResult :=
  let r : DecorateState × Bool × Bool :=
    if dec.useCachedDecorations then
      match getCachedDecorations s.cache dec.id with
      | some cached => (restoreCache s cached, false, false)
      | none =>
        let s := { s with curCacheableDecorator := some dec.id }
        (runAddCalls s dec.decorateCalls, dec.decorateThrows, true)
    else
      (runAddCalls s dec.decorateCalls, dec.decorateThrows, true)
  { state := { r.1 with curCacheableDecorator := none },
    threw := r.2.1,
    invokedDecorate := r.2.2 }

/-- A fresh-frame `DecorateContext` over a given viewport decoration cache:
empty bundle, empty DOM container, no decorator recording. -/
def freshFrame (cache : List (Nat × List CachedDecoration)) : DecorateState :=
  { cache := cache }

/-- The cached record produced by one add-call while a cacheable decorator is
recording: graphics are wrapped in a graphic owner, canvas and HTML records
keep their handles. -/
def cacheEntryOf (c : AddCall) : CachedDecoration :=
  match c with
  | .decoration type g => .graphic (createGraphicOwner g) type
  | .canvas d atFront => .canvas d atFront
  | .html e => .html e

/-- The effect of one cached decoration on the bundle and the DOM container —
the cache-free part of the add-paths, shared by a recording run (which routes
the owner-wrapped graphic) and a cache replay. -/
def applyCachedToBundle (b : Decorations × List Nat) (cd : CachedDecoration) :
    Decorations × List Nat :=
  match cd with
  | .graphic graphicOwner graphicType =>
    (addDecorationToBundle b.1 graphicType graphicOwner, b.2)
  | .canvas canvasDecoration atFront =>
    (addCanvasToBundle b.1 canvasDecoration atFront, b.2)
  | .html htmlElement => (b.1, b.2 ++ [htmlElement])

/-- The viewport cache contents accumulated by recording a sequence of
add-calls under decorator `i`. -/
def recordFold (cache : List (Nat × List CachedDecoration)) (i : Nat)
    (cs : List AddCall) : List (Nat × List CachedDecoration) :=
  cs.foldl (fun ch a => addCachedDecoration ch i (cacheEntryOf a)) cache

/-- `TileGraphicType` from `tile/internal`: selects the scene bucket that
`SceneContext.outputGraphic` routes into. -/
inductive TileGraphicType
  | scene
  | backgroundMap
  | overlay
deriving DecidableEq

/-- Modelled from the spec: the tile load-status enum is not part of the
excerpt; the excerpt's `switch` names `NotLoaded`, `Queued` and `Loading`, and
the spec lists the remaining loaded/terminal states, represented here by
`ready`, `notFound` and `abandoned`. -/
inductive TileLoadStatus
  | notLoaded
  | queued
  | loading
  | ready
  | notFound
  | abandoned
deriving DecidableEq

/-- A `Tile`: identity plus its load status. -/
structure Tile where
  id : Nat
  loadStatus : TileLoadStatus
deriving DecidableEq

/-- JavaScript `Set.add` over tiles: adds the tile unless already present. -/
def tileSetAdd (ts : List Tile) (t : Tile) : List Tile :=
  if t ∈ ts then ts else ts ++ [t]

/-- The per-frame state of one `SceneContext`: the children-loading flag, the
missing-tile set, the mutable current graphic type, the scene's three graphic
buckets, its planar-classifier map (classifier model id to classifier handle)
and a log of the classifiers whose graphics were collected this frame. -/
structure SceneState where
  missingChildTiles : Bool := false
  missingTiles : List Tile := []
  graphicType : TileGraphicType := .scene
  foreground : List RenderGraphic := []
  background : List RenderGraphic := []
  overlay : List RenderGraphic := []
  planarClassifiers : List (Nat × Nat) := []
  collected : List Nat := []
deriving DecidableEq

/-- `SceneContext.markChildrenLoading`. -/
def markChildrenLoading (s : SceneState) : SceneState :=
  { s with missingChildTiles := true }

/-- `SceneContext.hasMissingTiles`: the children-loading flag or a non-empty
missing-tile set. -/
def hasMissingTiles (s : SceneState) : Bool :=
  s.missingChildTiles || decide (s.missingTiles.length > 0)

/-- `SceneContext.insertMissingTile`: adds the tile to the missing-tile set
only when its load status is `NotLoaded`, `Queued` or `Loading`. -/
def insertMissingTile (s : SceneState) (tile : Tile) : SceneState :=
  match tile.loadStatus with
  | .notLoaded => { s with missingTiles := tileSetAdd s.missingTiles tile }
  | .queued => { s with missingTiles := tileSetAdd s.missingTiles tile }
  | .loading => { s with missingTiles := tileSetAdd s.missingTiles tile }
  | _ => s

/-- `SceneContext.outputGraphic`: routes the graphic by the current graphic
type — `BackgroundMap` to the background list, `Overlay` to the overlay list,
and the default case to the foreground graphics. -/
def outputGraphic (s : SceneState) (graphic : RenderGraphic) : SceneState :=
  match s.graphicType with
  | .backgroundMap => { s with background := s.background ++ [graphic] }
  | .overlay => { s with overlay := s.overlay ++ [graphic] }
  | .scene => { s with foreground := s.foreground ++ [graphic] }

/-- `SceneContext.withGraphicType`: saves the previous type, sets the new one
and invokes the callback; the previous type is restored only after the
callback returns — there is no try/finally, so when the callback throws
(second component `true`) the exception propagates with the type still set. -/
def withGraphicType (s : SceneState) (type : TileGraphicType)
    (func : SceneState → SceneState × Bool) : SceneState × Bool :=
  let prevType := s.graphicType
  let s := { s with graphicType := type }
  let r := func s
  if r.2 then (r.1, true)
  else ({ r.1 with graphicType := prevType }, false)

/-- `SpatialClassificationProps.Classifier` restricted to what
`addPlanarClassifier` reads: the classifier model id. -/
structure SpatialClassifier where
  modelId : Nat
deriving DecidableEq

/-- The render target's classifier interface used by `addPlanarClassifier`:
lookup of a classifier surviving from a prior frame, and creation of a new
one (either may produce nothing). -/
structure RenderTargetModel where
  getPlanarClassifier : Nat → Option Nat
  createPlanarClassifier : SpatialClassifier → Option Nat

/-- Lookup in the scene's planar-classifier map. -/
def classifierMapGet (m : List (Nat × Nat)) (k : Nat) : Option Nat :=
  match m with
  | [] => none
  | (k0, v) :: rest => if k0 = k then some v else classifierMapGet rest k

/-- `Map.set` on the scene's planar-classifier map. -/
def classifierMapSet (m : List (Nat × Nat)) (k v : Nat) : List (Nat × Nat) :=
  match m with
  | [] => [(k, v)]
  | (k0, v0) :: rest =>
    if k0 = k then (k0, v) :: rest else (k0, v0) :: classifierMapSet rest k v

/-- `SceneContext.addPlanarClassifier`: memoized on the classifier model id in
the scene's map; on a miss the render target's surviving classifier is reused,
else a new one is created; an obtained classifier is recorded in the map and
its graphics are collected (logged in `collected`) before it is returned. -/
def addPlanarClassifier (s : SceneState) (target : RenderTargetModel)
    (props : SpatialClassifier) : SceneState × Option Nat :=
  let id := props.modelId
  match classifierMapGet s.planarClassifiers id with
  | some classifier => (s, some classifier)
  | none =>
    let classifier :=
      match target.getPlanarClassifier id with
      | some c => some c
      | none => target.createPlanarClassifier props
    match classifier with
    | some c =>
      ({ s with planarClassifiers := classifierMapSet s.planarClassifiers id c,
                collected := s.collected ++ [c] }, some c)
    | none => (s, none)

/-- `gridConstants.minSeparation` from `ViewContext.ts`. -/
def minSeparation : ℚ := 20

/-- The reference-spacing scale factor of `drawStandardGrid`:
`(0 === gridsPerRef) ? 1.0 : gridsPerRef`. -/
def refScale (gridsPerRef : ℚ) : ℚ :=
  if gridsPerRef = 0 then 1 else gridsPerRef

/-- The `drawRefLines` guard of `drawStandardGrid`: reference lines are drawn
unless either axis's reference spacing maps to strictly fewer than
`minSeparation` screen pixels. -/
def drawRefLines (spacing : ℚ × ℚ) (meterPerPixel gridsPerRef : ℚ) : Bool :=
  let refSpacing := (spacing.1 * refScale gridsPerRef, spacing.2 * refScale gridsPerRef)
  !(decide (refSpacing.1 / meterPerPixel < minSeparation) ||
    decide (refSpacing.2 / meterPerPixel < minSeparation))

/-- The `drawGridLines` guard of `drawStandardGrid`: sub-grid lines require
both per-axis reference-line draws, more than one sub-grid division per
reference line, and the finer spacing not falling strictly below the
threshold. -/
def drawGridLines (spacing : ℚ × ℚ) (meterPerPixel gridsPerRef : ℚ)
    (drawRefX drawRefY : Bool) : Bool :=
  drawRefX && drawRefY &&
    (decide (gridsPerRef > 1) &&
      !(decide (spacing.1 / meterPerPixel < minSeparation) ||
        decide (spacing.2 / meterPerPixel < minSeparation)))

/-- A child curve of a clip loop: a `LineString3d` with its points (points
modelled by identity), or any other curve kind. -/
inductive GridClipChild
  | lineString (points : List Nat)
  | otherCurve
deriving DecidableEq

/-- One element of the clip result: a `Loop` with its children, or any other
geometry kind. -/
inductive GridClipGeom
  | loop (children : List GridClipChild)
  | nonLoop
deriving DecidableEq

/-- The external geometry results feeding `getClippedGridPlanePoints`: the
outcome of `ClipUtilities.loopsOfConvexClipPlaneIntersectionWithRange` and the
frustum side-plane `polygonClip` of the loop's points. -/
structure GridGeomEnv where
  clipResult : Option (List GridClipGeom)
  polygonClip : List Nat → List Nat

/-- `DecorateContext.getClippedGridPlanePoints`: fails (returns nothing) when
the clip result is absent or has other than one element, when that element is
not a `Loop` with exactly one child, when the child is not a line string, or
when fewer than 4 points survive the side-plane clip; otherwise the surviving
points are returned (the `loopPt`/`closeIndex` bookkeeping is an out-parameter
that does not affect the returned array and is omitted). -/
def getClippedGridPlanePoints (env : GridGeomEnv) : Option (List Nat) :=
  match env.clipResult with
  | none => none
  | some geom =>
    match geom with
    | [g0] =>
      match g0 with
      | .nonLoop => none
      | .loop children =>
        match children with
        | [child] =>
          match child with
          | .otherCurve => none
          | .lineString points =>
            let finalPoints := env.polygonClip points
            if finalPoints.length < 4 then none else some finalPoints
        | _ => none
    | _ => none

/-- The external inputs of `drawStandardGrid`'s early-return chain: whether
the eye direction normalized, the camera flag, the eye/plane-normal dot
product, whether the grid plane could be constructed, the clip environment,
and the grid graphic finally produced by the builder (the reference/sub-grid
line walks accumulate in the builder and only affect this graphic's content,
not whether a decoration is added). -/
structure DrawGridEnv where
  normalizeOk : Bool
  cameraOn : Bool
  eyeDot : ℚ
  planeOk : Bool
  geom : GridGeomEnv
  gridGraphic : RenderGraphic

/-- The early-return chain of `DecorateContext.drawStandardGrid`: failed
normalization, an orthographic view nearly parallel to the grid plane
(dot-product magnitude below 0.005), a failed plane construction, or a
degenerate clip each leave the context unchanged; otherwise the assembled
grid graphic is added through the standard decoration path as a
`WorldDecoration`. -/
def drawStandardGrid (s : DecorateState) (env : DrawGridEnv) : DecorateState :=
  if !env.normalizeOk then s
  else if !env.cameraOn && decide (|env.eyeDot| < 1 / 200) then s
  else if !env.planeOk then s
  else
    match getClippedGridPlanePoints env.geom with
    | none => s
    | some _ => addDecoration s .worldDecoration env.gridGraphic

end IModel

namespace IModel

/-- While a cacheable decorator is recording, one add-call records its cache
entry and applies that entry's bundle effect (with the owner-wrapped graphic
routed into the bundle). -/
theorem runAddCall_recording (s : DecorateState) (i : Nat) (c : AddCall)
    (h : s.curCacheableDecorator = some i) :
    runAddCall s c =
      { s with
        cache := addCachedDecoration s.cache i (cacheEntryOf c),
        decorations :=
          (applyCachedToBundle (s.decorations, s.decorationDiv) (cacheEntryOf c)).1,
        decorationDiv :=
          (applyCachedToBundle (s.decorations, s.decorationDiv) (cacheEntryOf c)).2 } := by
  cases c <;>
    simp [runAddCall, cacheEntryOf, applyCachedToBundle, addDecoration,
      addCanvasDecoration, addHtmlDecoration, appendToCache, h]

/-- With no decorator recording, replaying one cached decoration applies its
bundle effect and leaves the cache and the recording slot untouched. -/
theorem restoreCacheOne_not_recording (t : DecorateState) (cd : CachedDecoration)
    (h : t.curCacheableDecorator = none) :
    restoreCacheOne t cd =
      { t with
        decorations := (applyCachedToBundle (t.decorations, t.decorationDiv) cd).1,
        decorationDiv := (applyCachedToBundle (t.decorations, t.decorationDiv) cd).2 } := by
  cases cd <;>
    simp [restoreCacheOne, applyCachedToBundle, addDecoration,
      addCanvasDecoration, addHtmlDecoration, h]

/-- With no decorator recording, an add-call never touches the cache or the
recording slot. -/
theorem runAddCall_not_recording_cache (s : DecorateState) (c : AddCall)
    (h : s.curCacheableDecorator = none) :
    (runAddCall s c).cache = s.cache ∧ (runAddCall s c).curCacheableDecorator = none := by
  cases c <;>
    simp [runAddCall, addDecoration, addCanvasDecoration, addHtmlDecoration, h]

/-- With no decorator recording, a run of add-calls never touches the cache or
the recording slot. -/
theorem runAddCalls_not_recording (cs : List AddCall) (s : DecorateState)
    (h : s.curCacheableDecorator = none) :
    (runAddCalls s cs).cache = s.cache ∧
    (runAddCalls s cs).curCacheableDecorator = none := by
  induction cs generalizing s with
  | nil => exact ⟨rfl, h⟩
  | cons c cs ih =>
    have hc := runAddCall_not_recording_cache s c h
    have hrec : runAddCalls s (c :: cs) = runAddCalls (runAddCall s c) cs := rfl
    have := ih (runAddCall s c) hc.2
    exact ⟨by rw [hrec, this.1, hc.1], by rw [hrec]; exact this.2⟩

/-- Recording a run of add-calls produces the same bundle and DOM container as
replaying the corresponding cache entries on a non-recording context with the
same starting bundle; the recording side accumulates exactly the entry fold in
the cache while the replay side leaves its cache untouched. -/
theorem runAddCalls_sim (cs : List AddCall) (s t : DecorateState) (i : Nat)
    (hs : s.curCacheableDecorator = some i) (ht : t.curCacheableDecorator = none)
    (hdec : s.decorations = t.decorations) (hdiv : s.decorationDiv = t.decorationDiv) :
    (runAddCalls s cs).decorations = (restoreCache t (cs.map cacheEntryOf)).decorations ∧
    (runAddCalls s cs).decorationDiv =
      (restoreCache t (cs.map cacheEntryOf)).decorationDiv ∧
    (runAddCalls s cs).curCacheableDecorator = some i ∧
    (restoreCache t (cs.map cacheEntryOf)).curCacheableDecorator = none ∧
    (restoreCache t (cs.map cacheEntryOf)).cache = t.cache ∧
    (runAddCalls s cs).cache = recordFold s.cache i cs := by
  induction cs generalizing s t with
  | nil =>
    exact ⟨hdec, hdiv, hs, ht, rfl, rfl⟩
  | cons c cs ih =>
    have hstep := runAddCall_recording s i c hs
    have hres := restoreCacheOne_not_recording t (cacheEntryOf c) ht
    have hrun : runAddCalls s (c :: cs) = runAddCalls (runAddCall s c) cs := rfl
    have hrest : restoreCache t ((c :: cs).map cacheEntryOf) =
        restoreCache (restoreCacheOne t (cacheEntryOf c)) (cs.map cacheEntryOf) := rfl
    have h1 : (runAddCall s c).curCacheableDecorator = some i := by
      rw [hstep]; exact hs
    have h2 : (restoreCacheOne t (cacheEntryOf c)).curCacheableDecorator = none := by
      rw [hres]; exact ht
    have h3 : (runAddCall s c).decorations =
        (restoreCacheOne t (cacheEntryOf c)).decorations := by
      rw [hstep, hres]; simp [hdec, hdiv]
    have h4 : (runAddCall s c).decorationDiv =
        (restoreCacheOne t (cacheEntryOf c)).decorationDiv := by
      rw [hstep, hres]; simp [hdec, hdiv]
    have h5 : (restoreCacheOne t (cacheEntryOf c)).cache = t.cache := by
      rw [hres]
    have h6 : (runAddCall s c).cache = addCachedDecoration s.cache i (cacheEntryOf c) := by
      rw [hstep]
    have hfold : recordFold s.cache i (c :: cs) =
        recordFold (addCachedDecoration s.cache i (cacheEntryOf c)) i cs := rfl
    obtain ⟨d1, d2, d3, d4, d5, d6⟩ :=
      ih (runAddCall s c) (restoreCacheOne t (cacheEntryOf c)) h1 h2 h3 h4
    refine ⟨?_, ?_, ?_, ?_, ?_, ?_⟩
    · rw [hrun, hrest]; exact d1
    · rw [hrun, hrest]; exact d2
    · rw [hrun]; exact d3
    · rw [hrest]; exact d4
    · rw [hrest, d5, h5]
    · rw [hrun, hfold, d6, h6]

/-- Appending one entry under key `i` extends that key's cached list by the
entry (creating it when absent). -/
theorem getCached_addCachedDecoration (cache : List (Nat × List CachedDecoration))
    (i : Nat) (d : CachedDecoration) :
    getCachedDecorations (addCachedDecoration cache i d) i =
      some ((getCachedDecorations cache i).getD [] ++ [d]) := by
  induction cache with
  | nil => simp [addCachedDecoration, getCachedDecorations]
  | cons kv rest ih =>
    obtain ⟨k, ds⟩ := kv
    by_cases h : k = i <;> simp [addCachedDecoration, getCachedDecorations, h, ih]

/-- Recording a run of add-calls under key `i` leaves that key's cached list
extended by the run's entries. -/
theorem getCached_recordFold (cs : List AddCall)
    (cache : List (Nat × List CachedDecoration)) (i : Nat) :
    getCachedDecorations (recordFold cache i cs) i =
      match cs with
      | [] => getCachedDecorations cache i
      | _ :: _ => some ((getCachedDecorations cache i).getD [] ++ cs.map cacheEntryOf) := by
  induction cs generalizing cache with
  | nil => rfl
  | cons c cs ih =>
    have hfold : recordFold cache i (c :: cs) =
        recordFold (addCachedDecoration cache i (cacheEntryOf c)) i cs := rfl
    rw [hfold, ih]
    cases cs with
    | nil => simp [getCached_addCachedDecoration]
    | cons c2 cs2 => simp [getCached_addCachedDecoration]

/-- `getCached_recordFold` for a non-empty run. -/
theorem getCached_recordFold_ne (cs : List AddCall)
    (cache : List (Nat × List CachedDecoration)) (i : Nat) (h : cs ≠ []) :
    getCachedDecorations (recordFold cache i cs) i =
      some ((getCachedDecorations cache i).getD [] ++ cs.map cacheEntryOf) := by
  cases cs with
  | nil => exact absurd rfl h
  | cons c cs2 => exact getCached_recordFold (c :: cs2) cache i

/-- The recording branch of `addFromDecorator`: a caching decorator with no
prior cache entry marks itself as recording and runs `decorate`. -/
theorem addFromDecorator_record (s : DecorateState) (dec : ViewportDecorator)
    (hc : dec.useCachedDecorations = true)
    (hnone : getCachedDecorations s.cache dec.id = none) :
    addFromDecorator s dec =
      ⟨{ runAddCalls { s with curCacheableDecorator := some dec.id } dec.decorateCalls
          with curCacheableDecorator := none }, dec.decorateThrows, true⟩ := by
  simp [addFromDecorator, hc, hnone]

/-- The replay branch of `addFromDecorator`: a caching decorator with a prior
cache entry replays it and `decorate` is not invoked. -/
theorem addFromDecorator_replay (s : DecorateState) (dec : ViewportDecorator)
    (cached : List CachedDecoration) (hc : dec.useCachedDecorations = true)
    (hsome : getCachedDecorations s.cache dec.id = some cached) :
    addFromDecorator s dec =
      ⟨{ restoreCache s cached with curCacheableDecorator := none }, false, false⟩ := by
  simp [addFromDecorator, hc, hsome]

/-- C1: adding three canvas decorations with `atFront = false, false, true` on a
fresh context yields the list `[second, first, third]`, not `[third, first,
second]` as the claim states: the code pushes (appends at the back) when the
list is empty or `atFront` is true, and unshifts (prepends) otherwise — the
reverse of the claimed insertion rule. -/
theorem addCanvasDecoration_order_counterexample :
    (addCanvasDecoration (addCanvasDecoration (addCanvasDecoration (freshFrame []) 1 false)
        2 false) 3 true).decorations.canvasDecorations = some [2, 1, 3] ∧
    (addCanvasDecoration (addCanvasDecoration (addCanvasDecoration (freshFrame []) 1 false)
        2 false) 3 true).decorations.canvasDecorations ≠ some [3, 1, 2] := by
  constructor
  · rfl
  · decide

/-- C1 (amended): for any three canvas decorations added with
`atFront = false, false, true` on a fresh context the final list order is
`[second, first, third]`; at the array level the insertion rule is reversed
with respect to the claim: when the list is currently empty or `atFront` is
true the new item is appended at the back (push), otherwise it is prepended at
the front (unshift). -/
theorem addCanvasDecoration_order_amended (a b c : Nat) (s : DecorateState) (d : Nat)
    (f : Bool) :
    (addCanvasDecoration (addCanvasDecoration (addCanvasDecoration (freshFrame []) a false)
        b false) c true).decorations.canvasDecorations = some [b, a, c] ∧
    (addCanvasDecoration s d f).decorations.canvasDecorations =
      some (if (s.decorations.canvasDecorations.getD []).length = 0 || f
            then s.decorations.canvasDecorations.getD [] ++ [d]
            else d :: s.decorations.canvasDecorations.getD []) := by
  constructor
  · rfl
  · by_cases h : s.curCacheableDecorator.isSome <;>
      simp [addCanvasDecoration, addCanvasToBundle, appendToCache, h]
    cases hc : s.curCacheableDecorator <;> simp [hc] at h ⊢

/-- C2: refuted at a concrete input — a callback that throws leaves the
current graphic type set to the new type: `withGraphicType` performs the
restore only after a normal return, so the claimed restoration on every exit
path fails on the throwing path. -/
theorem withGraphicType_throw_counterexample :
    (withGraphicType {} .overlay (fun s => (s, true))).1.graphicType = .overlay ∧
    (withGraphicType {} .overlay (fun s => (s, true))).1.graphicType ≠
      SceneState.graphicType {} ∧
    (withGraphicType {} .overlay (fun s => (s, true))).2 = true := by
  refine ⟨rfl, ?_, rfl⟩
  decide

/-- C2 (amended): `withGraphicType` saves the previous current-graphic-type,
sets it to `type` and invokes the callback, so that during the callback
`outputGraphic` routes graphics into the bucket selected by `type`; the
previous value is restored when the callback returns normally, but when the
callback throws no restoration is applied — the callback's final state (with
the type still set to `type` unless the callback changed it) propagates with
the exception (there is no try/finally). -/
theorem withGraphicType_amended (s : SceneState) (type : TileGraphicType)
    (g : RenderGraphic) (func : SceneState → SceneState × Bool) :
    (withGraphicType s type (fun s1 => (outputGraphic s1 g, false))).1.graphicType =
      s.graphicType ∧
    (withGraphicType s type (fun s1 => (outputGraphic s1 g, false))).2 = false ∧
    (withGraphicType s type (fun s1 => (outputGraphic s1 g, false))).1.foreground =
      (if type = .scene then s.foreground ++ [g] else s.foreground) ∧
    (withGraphicType s type (fun s1 => (outputGraphic s1 g, false))).1.background =
      (if type = .backgroundMap then s.background ++ [g] else s.background) ∧
    (withGraphicType s type (fun s1 => (outputGraphic s1 g, false))).1.overlay =
      (if type = .overlay then s.overlay ++ [g] else s.overlay) ∧
    ((func { s with graphicType := type }).2 = false →
      (withGraphicType s type func).1.graphicType = s.graphicType) ∧
    ((func { s with graphicType := type }).2 = true →
      withGraphicType s type func = ((func { s with graphicType := type }).1, true)) := by
  refine ⟨?_, ?_, ?_, ?_, ?_, ?_, ?_⟩
  all_goals cases type <;> simp_all [withGraphicType, outputGraphic]

/-- C2 (amended) at a concrete input. -/
theorem withGraphicType_amended_witness :
    (withGraphicType {} .overlay
        (fun s1 => (outputGraphic s1 (.primitive 5), false))).1.graphicType =
      SceneState.graphicType {} ∧
    (withGraphicType {} .overlay
        (fun s1 => (outputGraphic s1 (.primitive 5), false))).1.overlay =
      (if TileGraphicType.overlay = .overlay
       then SceneState.overlay {} ++ [.primitive 5] else SceneState.overlay {}) ∧
    (withGraphicType ({} : SceneState) .backgroundMap (fun s => (s, false))).1.graphicType =
      SceneState.graphicType {} :=
  ⟨(withGraphicType_amended {} .overlay (.primitive 5) (fun s => (s, false))).1,
   (withGraphicType_amended {} .overlay (.primitive 5) (fun s => (s, false))).2.2.2.2.1,
   (withGraphicType_amended {} .backgroundMap (.primitive 5)
      (fun s => (s, false))).2.2.2.2.2.1 rfl⟩

/-- C8: `insertMissingTile` adds the tile to the missing-tile set exactly when
its load status is `NotLoaded`, `Queued` or `Loading` and leaves the state
unchanged otherwise; `hasMissingTiles` holds exactly when the missing-tile set
is non-empty or the children-loading flag was raised, and
`markChildrenLoading` raises that flag. -/
theorem insertMissingTile_hasMissingTiles_spec (s : SceneState) (tile : Tile) :
    ((tile.loadStatus = .notLoaded ∨ tile.loadStatus = .queued ∨
        tile.loadStatus = .loading) →
      tile ∈ (insertMissingTile s tile).missingTiles ∧
      (insertMissingTile s tile).missingTiles = tileSetAdd s.missingTiles tile) ∧
    (tile.loadStatus ≠ .notLoaded ∧ tile.loadStatus ≠ .queued ∧
        tile.loadStatus ≠ .loading →
      insertMissingTile s tile = s) ∧
    (hasMissingTiles s = true ↔ (s.missingChildTiles = true ∨ s.missingTiles ≠ [])) ∧
    hasMissingTiles (markChildrenLoading s) = true := by
  refine ⟨?_, ?_, ?_, ?_⟩
  · intro h
    have hmem : tile ∈ tileSetAdd s.missingTiles tile := by
      by_cases hin : tile ∈ s.missingTiles <;> simp [tileSetAdd, hin]
    rcases h with h | h | h <;> simp [insertMissingTile, h, hmem]
  · rintro ⟨h1, h2, h3⟩
    cases h : tile.loadStatus <;> simp_all [insertMissingTile]
  · cases h : s.missingTiles <;> simp [hasMissingTiles, h]
  · simp [hasMissingTiles, markChildrenLoading]

/-- C8 at a concrete input. -/
theorem insertMissingTile_hasMissingTiles_witness :
    (⟨0, .queued⟩ : Tile) ∈ (insertMissingTile {} ⟨0, .queued⟩).missingTiles ∧
    insertMissingTile {} ⟨1, .ready⟩ = {} ∧
    hasMissingTiles (markChildrenLoading {}) = true :=
  ⟨((insertMissingTile_hasMissingTiles_spec {} ⟨0, .queued⟩).1 (Or.inr (Or.inl rfl))).1,
   (insertMissingTile_hasMissingTiles_spec {} ⟨1, .ready⟩).2.1
     ⟨by decide, by decide, by decide⟩,
   (insertMissingTile_hasMissingTiles_spec {} ⟨0, .queued⟩).2.2.2⟩

/-- C9: `addPlanarClassifier` is memoized by classifier model id — a hit in the
scene's map returns the recorded instance with the scene state (including the
collection log) untouched; on a miss the target's surviving classifier is
reused when present, else a newly created one is used; an obtained classifier
is recorded in the scene's map and its graphics collected before return, and
`none` is returned when the target can produce no classifier. -/
theorem addPlanarClassifier_memoized (s : SceneState) (target : RenderTargetModel)
    (props : SpatialClassifier) :
    (∀ c, classifierMapGet s.planarClassifiers props.modelId = some c →
      addPlanarClassifier s target props = (s, some c)) ∧
    (∀ c, classifierMapGet s.planarClassifiers props.modelId = none →
      target.getPlanarClassifier props.modelId = some c →
      addPlanarClassifier s target props =
        ({ s with planarClassifiers := classifierMapSet s.planarClassifiers props.modelId c,
                  collected := s.collected ++ [c] }, some c)) ∧
    (∀ c, classifierMapGet s.planarClassifiers props.modelId = none →
      target.getPlanarClassifier props.modelId = none →
      target.createPlanarClassifier props = some c →
      addPlanarClassifier s target props =
        ({ s with planarClassifiers := classifierMapSet s.planarClassifiers props.modelId c,
                  collected := s.collected ++ [c] }, some c)) ∧
    (classifierMapGet s.planarClassifiers props.modelId = none →
      target.getPlanarClassifier props.modelId = none →
      target.createPlanarClassifier props = none →
      addPlanarClassifier s target props = (s, none)) := by
  refine ⟨?_, ?_, ?_, ?_⟩
  · intro c h; simp [addPlanarClassifier, h]
  · intro c h hg; simp [addPlanarClassifier, h, hg]
  · intro c h hg hc; simp [addPlanarClassifier, h, hg, hc]
  · intro h hg hc; simp [addPlanarClassifier, h, hg, hc]

/-- C9 at concrete inputs: a memoized hit returns the recorded instance
unchanged, and a target that can produce no classifier yields `none`. -/
theorem addPlanarClassifier_memoized_witness :
    addPlanarClassifier { planarClassifiers := [(3, 7)] }
        ⟨fun _ => none, fun _ => none⟩ ⟨3⟩ =
      ({ planarClassifiers := [(3, 7)] }, some 7) ∧
    addPlanarClassifier {} ⟨fun _ => none, fun _ => none⟩ ⟨3⟩ = ({}, none) :=
  ⟨(addPlanarClassifier_memoized { planarClassifiers := [(3, 7)] }
      ⟨fun _ => none, fun _ => none⟩ ⟨3⟩).1 7 rfl,
   (addPlanarClassifier_memoized {} ⟨fun _ => none, fun _ => none⟩ ⟨3⟩).2.2.2 rfl rfl rfl⟩

/-- C5: refuted at the boundary — at a projected separation of exactly 20
pixels (spacing 20, one meter per pixel) the strict comparison `20 < 20` is
false, so the suppression does not trigger and the reference lines (and, with
more than one division, the sub-grid lines) ARE drawn, contrary to the claim
that they are not drawn there. -/
theorem gridMinSeparation_boundary_counterexample :
    drawRefLines (20, 20) 1 1 = true ∧
    (20 : ℚ) * refScale 1 / 1 = minSeparation ∧
    drawGridLines (20, 20) 1 2 true true = true ∧
    (20 : ℚ) / 1 = minSeparation := by
  refine ⟨?_, ?_, ?_, ?_⟩ <;> norm_num [drawRefLines, drawGridLines, refScale, minSeparation]

/-- C5 (amended): reference-line drawing is suppressed entirely when either
axis's reference spacing maps to strictly fewer than 20 screen pixels;
sub-grid-line drawing is additionally suppressed when the finer spacing falls
strictly below that threshold or the sub-grid divisions per reference line are
at most 1; and because the comparison is strict, at a projected separation of
exactly 20 pixels (or more) on both axes the reference lines ARE drawn. -/
theorem gridMinSeparation_amended (sx sy mpp g : ℚ) (dRX dRY : Bool) :
    (sx * refScale g / mpp < minSeparation ∨ sy * refScale g / mpp < minSeparation →
      drawRefLines (sx, sy) mpp g = false) ∧
    (sx / mpp < minSeparation ∨ sy / mpp < minSeparation ∨ g ≤ 1 →
      drawGridLines (sx, sy) mpp g dRX dRY = false) ∧
    (¬ sx * refScale g / mpp < minSeparation → ¬ sy * refScale g / mpp < minSeparation →
      drawRefLines (sx, sy) mpp g = true) := by
  refine ⟨?_, ?_, ?_⟩
  · intro h
    simp only [drawRefLines, Bool.not_eq_false', Bool.or_eq_true, decide_eq_true_eq]
    exact h
  · intro h
    have hx : (decide (sx / mpp < minSeparation) ||
          decide (sy / mpp < minSeparation)) = true ∨ decide (g > 1) = false := by
      rcases h with h | h | h
      · exact Or.inl (by simp [h])
      · exact Or.inl (by simp [h])
      · exact Or.inr (by simpa using not_lt.mpr h)
    rcases hx with hx | hx <;> simp [drawGridLines, hx]
  · intro h1 h2
    simp only [drawRefLines, Bool.not_eq_true', Bool.or_eq_false_iff,
      decide_eq_false_iff_not]
    exact ⟨h1, h2⟩

/-- C5 (amended) at concrete inputs: one-pixel spacing suppresses both kinds
of lines, and both axes at exactly the 20-pixel boundary draw the reference
lines. -/
theorem gridMinSeparation_amended_witness :
    drawRefLines (1, 1) 1 0 = false ∧
    drawGridLines (1, 1) 1 0 true true = false ∧
    drawRefLines (40, 40) 2 0 = true :=
  ⟨(gridMinSeparation_amended 1 1 1 0 true true).1
      (Or.inl (by norm_num [refScale, minSeparation])),
   (gridMinSeparation_amended 1 1 1 0 true true).2.1
      (Or.inr (Or.inr (by norm_num))),
   (gridMinSeparation_amended 40 40 2 0 true true).2.2
      (by norm_num [refScale, minSeparation]) (by norm_num [refScale, minSeparation])⟩

/-- C7: `drawStandardGrid` adds no decoration when the grid-plane clip is
degenerate — an absent clip result, other than one element, a non-loop
element, a loop without exactly one child, a child that is not a line string,
or fewer than 4 boundary points after the side-plane clip each make
`getClippedGridPlanePoints` fail, and the failure makes `drawStandardGrid` a
silent no-op on the context. -/
theorem drawStandardGrid_degenerate_noop (s : DecorateState) (env : DrawGridEnv) :
    (env.geom.clipResult = none → getClippedGridPlanePoints env.geom = none) ∧
    (∀ gs, env.geom.clipResult = some gs → gs.length ≠ 1 →
      getClippedGridPlanePoints env.geom = none) ∧
    (env.geom.clipResult = some [.nonLoop] → getClippedGridPlanePoints env.geom = none) ∧
    (∀ children, env.geom.clipResult = some [.loop children] → children.length ≠ 1 →
      getClippedGridPlanePoints env.geom = none) ∧
    (env.geom.clipResult = some [.loop [.otherCurve]] →
      getClippedGridPlanePoints env.geom = none) ∧
    (∀ points, env.geom.clipResult = some [.loop [.lineString points]] →
      (env.geom.polygonClip points).length < 4 →
      getClippedGridPlanePoints env.geom = none) ∧
    (getClippedGridPlanePoints env.geom = none → drawStandardGrid s env = s) := by
  refine ⟨?_, ?_, ?_, ?_, ?_, ?_, ?_⟩
  · intro h; simp [getClippedGridPlanePoints, h]
  · intro gs h hlen
    rcases gs with _ | ⟨g0, _ | ⟨g1, rest⟩⟩ <;> simp_all [getClippedGridPlanePoints]
  · intro h; simp [getClippedGridPlanePoints, h]
  · intro children h hlen
    rcases children with _ | ⟨c0, _ | ⟨c1, rest⟩⟩ <;>
      simp_all [getClippedGridPlanePoints]
  · intro h; simp [getClippedGridPlanePoints, h]
  · intro points h hlt
    simp [getClippedGridPlanePoints, h, hlt]
  · intro h
    simp [drawStandardGrid, h]

/-- C7 at concrete inputs: an absent clip result and a 3-point surviving
polygon each yield no boundary, and `drawStandardGrid` leaves a fresh context
unchanged on such a degenerate clip. -/
theorem drawStandardGrid_degenerate_noop_witness :
    getClippedGridPlanePoints ⟨none, fun ps => ps⟩ = none ∧
    getClippedGridPlanePoints ⟨some [.loop [.lineString [1, 2, 3]]], fun ps => ps⟩ = none ∧
    drawStandardGrid (freshFrame [])
        ⟨true, true, 0, true, ⟨none, fun ps => ps⟩, .primitive 0⟩ = freshFrame [] :=
  ⟨(drawStandardGrid_degenerate_noop (freshFrame [])
      ⟨true, true, 0, true, ⟨none, fun ps => ps⟩, .primitive 0⟩).1 rfl,
   (drawStandardGrid_degenerate_noop (freshFrame [])
      ⟨true, true, 0, true, ⟨some [.loop [.lineString [1, 2, 3]]], fun ps => ps⟩,
        .primitive 0⟩).2.2.2.2.2.1 [1, 2, 3] rfl (by norm_num),
   (drawStandardGrid_degenerate_noop (freshFrame [])
      ⟨true, true, 0, true, ⟨none, fun ps => ps⟩, .primitive 0⟩).2.2.2.2.2.2
     ((drawStandardGrid_degenerate_noop (freshFrame [])
        ⟨true, true, 0, true, ⟨none, fun ps => ps⟩, .primitive 0⟩).1 rfl)⟩

/-- C10: with `gridsPerRef = 0` the reference-spacing scale factor is 1 (the
reference spacing equals the raw input spacing), and the sub-grid generation —
the only site dividing by `gridsPerRef` — is guarded by `drawGridLines`, which
holds only when `gridsPerRef` exceeds 1, so the division is never reached with
a zero (or zero-producing) divisor. -/
theorem gridsPerRef_zero_safe (sx sy mpp g : ℚ) (dRX dRY : Bool) :
    refScale 0 = 1 ∧
    sx * refScale 0 = sx ∧
    (drawGridLines (sx, sy) mpp g dRX dRY = true → 1 < g ∧ g ≠ 0) := by
  refine ⟨by norm_num [refScale], by norm_num [refScale], ?_⟩
  intro h
  simp only [drawGridLines, Bool.and_eq_true, decide_eq_true_eq] at h
  refine ⟨h.2.1, ?_⟩
  intro h0
  rw [h0] at h
  exact absurd h.2.1 (by norm_num)

/-- C10 at a concrete input: a satisfied sub-grid guard forces more than one
division per reference line. -/
theorem gridsPerRef_zero_safe_witness :
    refScale 0 = 1 ∧ (100 : ℚ) * refScale 0 = 100 ∧ ((1 : ℚ) < 2 ∧ (2 : ℚ) ≠ 0) :=
  ⟨(gridsPerRef_zero_safe 100 100 1 2 true true).1,
   (gridsPerRef_zero_safe 100 100 1 2 true true).2.1,
   (gridsPerRef_zero_safe 100 100 1 2 true true).2.2
     (by norm_num [drawGridLines, minSeparation])⟩

/-- C4: `addFromDecorator` clears the cache-recording slot before it exits on
every path — cache replay, normal return of `decorate`, and a throwing
`decorate` (the `finally` block) — so a subsequent decorator invocation on the
same context starts with no decorator active. -/
theorem addFromDecorator_clears_recording_slot (s : DecorateState)
    (dec : ViewportDecorator) :
    (addFromDecorator s dec).state.curCacheableDecorator = none := rfl

/-- C6: for a decorator that did not opt into caching, every `addFromDecorator`
invocation (here two in sequence) invokes `decorate`, and the viewport cache is
never touched — no cache entry is ever created for that decorator. -/
theorem addFromDecorator_uncached_invokes_each_time (s : DecorateState)
    (dec : ViewportDecorator) (hnc : dec.useCachedDecorations = false)
    (h0 : s.curCacheableDecorator = none) :
    (addFromDecorator s dec).invokedDecorate = true ∧
    (addFromDecorator (addFromDecorator s dec).state dec).invokedDecorate = true ∧
    (addFromDecorator s dec).state.cache = s.cache ∧
    (addFromDecorator (addFromDecorator s dec).state dec).state.cache = s.cache := by
  have e1 : addFromDecorator s dec =
      ⟨{ runAddCalls s dec.decorateCalls with curCacheableDecorator := none },
        dec.decorateThrows, true⟩ := by
    simp [addFromDecorator, hnc]
  have l1 := runAddCalls_not_recording dec.decorateCalls s h0
  have h2 : ({ runAddCalls s dec.decorateCalls with
      curCacheableDecorator := none } : DecorateState).curCacheableDecorator = none := rfl
  have l2 := runAddCalls_not_recording dec.decorateCalls
    { runAddCalls s dec.decorateCalls with curCacheableDecorator := none } h2
  have e2 : addFromDecorator
      ({ runAddCalls s dec.decorateCalls with
          curCacheableDecorator := none } : DecorateState) dec =
      ⟨{ runAddCalls { runAddCalls s dec.decorateCalls with
            curCacheableDecorator := none } dec.decorateCalls with
          curCacheableDecorator := none },
        dec.decorateThrows, true⟩ := by
    simp [addFromDecorator, hnc]
  refine ⟨by rw [e1], by rw [e1, e2], by rw [e1]; exact l1.1, ?_⟩
  rw [e1, e2]
  show (runAddCalls { runAddCalls s dec.decorateCalls with
      curCacheableDecorator := none } dec.decorateCalls).cache = s.cache
  rw [l2.1]
  exact l1.1

/-- C6 at concrete inputs. -/
theorem addFromDecorator_uncached_witness :
    (addFromDecorator (freshFrame [])
        ⟨0, false, [.canvas 1 false], false⟩).invokedDecorate = true ∧
    (addFromDecorator (addFromDecorator (freshFrame [])
          ⟨0, false, [.canvas 1 false], false⟩).state
        ⟨0, false, [.canvas 1 false], false⟩).invokedDecorate = true ∧
    (addFromDecorator (freshFrame [])
        ⟨0, false, [.canvas 1 false], false⟩).state.cache = (freshFrame []).cache ∧
    (addFromDecorator (addFromDecorator (freshFrame [])
          ⟨0, false, [.canvas 1 false], false⟩).state
        ⟨0, false, [.canvas 1 false], false⟩).state.cache = (freshFrame []).cache :=
  addFromDecorator_uncached_invokes_each_time (freshFrame [])
    ⟨0, false, [.canvas 1 false], false⟩ rfl rfl

/-- C3: for a caching decorator with no prior cache entry whose `decorate`
performs at least one add-call, the first `addFromDecorator` invokes `decorate`
and creates a cache entry whose decoration count equals the number of
add-calls; the second invocation on a fresh frame over the same cache does not
invoke `decorate` and replays the stored entries in order through the same
add-paths, reproducing the identical `Decorations` bundle and DOM container
(hence identical decoration-type ordering) as the freshly computed frame. -/
theorem addFromDecorator_cache_replay (dec : ViewportDecorator)
    (cache0 : List (Nat × List CachedDecoration))
    (hc : dec.useCachedDecorations = true)
    (hnone : getCachedDecorations cache0 dec.id = none)
    (hne : dec.decorateCalls ≠ []) :
    (addFromDecorator (freshFrame cache0) dec).invokedDecorate = true ∧
    getCachedDecorations (addFromDecorator (freshFrame cache0) dec).state.cache dec.id =
      some (dec.decorateCalls.map cacheEntryOf) ∧
    ((getCachedDecorations (addFromDecorator (freshFrame cache0) dec).state.cache
        dec.id).getD []).length = dec.decorateCalls.length ∧
    (addFromDecorator
        (freshFrame (addFromDecorator (freshFrame cache0) dec).state.cache)
        dec).invokedDecorate = false ∧
    (addFromDecorator
        (freshFrame (addFromDecorator (freshFrame cache0) dec).state.cache)
        dec).state.decorations =
      (addFromDecorator (freshFrame cache0) dec).state.decorations ∧
    (addFromDecorator
        (freshFrame (addFromDecorator (freshFrame cache0) dec).state.cache)
        dec).state.decorationDiv =
      (addFromDecorator (freshFrame cache0) dec).state.decorationDiv := by
  have hA : addFromDecorator (freshFrame cache0) dec =
      ⟨{ runAddCalls { freshFrame cache0 with curCacheableDecorator := some dec.id }
            dec.decorateCalls with curCacheableDecorator := none },
        dec.decorateThrows, true⟩ :=
    addFromDecorator_record (freshFrame cache0) dec hc hnone
  obtain ⟨d1, d2, d3, d4, d5, d6⟩ := runAddCalls_sim dec.decorateCalls
    { freshFrame cache0 with curCacheableDecorator := some dec.id }
    (freshFrame (addFromDecorator (freshFrame cache0) dec).state.cache)
    dec.id rfl rfl rfl rfl
  have hentry : getCachedDecorations
      (addFromDecorator (freshFrame cache0) dec).state.cache dec.id =
      some (dec.decorateCalls.map cacheEntryOf) := by
    rw [hA]
    show getCachedDecorations
      (runAddCalls { freshFrame cache0 with curCacheableDecorator := some dec.id }
        dec.decorateCalls).cache dec.id = _
    rw [d6, getCached_recordFold_ne dec.decorateCalls _ dec.id hne]
    show some ((getCachedDecorations cache0 dec.id).getD [] ++ _) = _
    rw [hnone]
    rfl
  have hB : addFromDecorator
      (freshFrame (addFromDecorator (freshFrame cache0) dec).state.cache) dec =
      ⟨{ restoreCache
            (freshFrame (addFromDecorator (freshFrame cache0) dec).state.cache)
            (dec.decorateCalls.map cacheEntryOf) with curCacheableDecorator := none },
        false, false⟩ :=
    addFromDecorator_replay _ dec _ hc hentry
  refine ⟨by rw [hA], hentry, ?_, by rw [hB], ?_, ?_⟩
  · rw [hentry]
    simp
  · calc (addFromDecorator
          (freshFrame (addFromDecorator (freshFrame cache0) dec).state.cache)
          dec).state.decorations
        = (restoreCache
            (freshFrame (addFromDecorator (freshFrame cache0) dec).state.cache)
            (dec.decorateCalls.map cacheEntryOf)).decorations := by rw [hB]
      _ = (runAddCalls { freshFrame cache0 with curCacheableDecorator := some dec.id }
            dec.decorateCalls).decorations := d1.symm
      _ = (addFromDecorator (freshFrame cache0) dec).state.decorations := by rw [hA]
  · calc (addFromDecorator
          (freshFrame (addFromDecorator (freshFrame cache0) dec).state.cache)
          dec).state.decorationDiv
        = (restoreCache
            (freshFrame (addFromDecorator (freshFrame cache0) dec).state.cache)
            (dec.decorateCalls.map cacheEntryOf)).decorationDiv := by rw [hB]
      _ = (runAddCalls { freshFrame cache0 with curCacheableDecorator := some dec.id }
            dec.decorateCalls).decorationDiv := d2.symm
      _ = (addFromDecorator (freshFrame cache0) dec).state.decorationDiv := by rw [hA]

/-- C3 at concrete inputs: a caching decorator performing one graphic, one
canvas and one HTML add. -/
theorem addFromDecorator_cache_replay_witness :
    (addFromDecorator (freshFrame [])
        ⟨7, true, [.decoration .viewOverlay (.primitive 0), .canvas 1 true, .html 2],
          false⟩).invokedDecorate = true ∧
    getCachedDecorations (addFromDecorator (freshFrame [])
        ⟨7, true, [.decoration .viewOverlay (.primitive 0), .canvas 1 true, .html 2],
          false⟩).state.cache 7 =
      some (([.decoration .viewOverlay (.primitive 0), .canvas 1 true, .html 2] :
          List AddCall).map cacheEntryOf) ∧
    ((getCachedDecorations (addFromDecorator (freshFrame [])
        ⟨7, true, [.decoration .viewOverlay (.primitive 0), .canvas 1 true, .html 2],
          false⟩).state.cache 7).getD []).length =
      ([.decoration .viewOverlay (.primitive 0), .canvas 1 true, .html 2] :
          List AddCall).length ∧
    (addFromDecorator
        (freshFrame (addFromDecorator (freshFrame [])
          ⟨7, true, [.decoration .viewOverlay (.primitive 0), .canvas 1 true, .html 2],
            false⟩).state.cache)
        ⟨7, true, [.decoration .viewOverlay (.primitive 0), .canvas 1 true, .html 2],
          false⟩).invokedDecorate = false ∧
    (addFromDecorator
        (freshFrame (addFromDecorator (freshFrame [])
          ⟨7, true, [.decoration .viewOverlay (.primitive 0), .canvas 1 true, .html 2],
            false⟩).state.cache)
        ⟨7, true, [.decoration .viewOverlay (.primitive 0), .canvas 1 true, .html 2],
          false⟩).state.decorations =
      (addFromDecorator (freshFrame [])
        ⟨7, true, [.decoration .viewOverlay (.primitive 0), .canvas 1 true, .html 2],
          false⟩).state.decorations ∧
    (addFromDecorator
        (freshFrame (addFromDecorator (freshFrame [])
          ⟨7, true, [.decoration .viewOverlay (.primitive 0), .canvas 1 true, .html 2],
            false⟩).state.cache)
        ⟨7, true, [.decoration .viewOverlay (.primitive 0), .canvas 1 true, .html 2],
          false⟩).state.decorationDiv =
      (addFromDecorator (freshFrame [])
        ⟨7, true, [.decoration .viewOverlay (.primitive 0), .canvas 1 true, .html 2],
          false⟩).state.decorationDiv :=
  addFromDecorator_cache_replay
    ⟨7, true, [.decoration .viewOverlay (.primitive 0), .canvas 1 true, .html 2], false⟩
    [] rfl rfl (by decide)

end IModel
